import Mathlib

/-!
Shallow embedding of the bill-scraping core of this repository
(src/scraper.py: `parse_data_to_dataframe` and `get_all_bills`).

Modelling conventions:
* A BeautifulSoup document is reduced to exactly the queries the source
  performs on it (each `find` result becomes an `Option` field).
* The network layer (`fetch_bill_data`) is abstracted as an oracle
  `Nat → FetchResult` giving, for each page number, the classified response:
  `netError` (the `requests.exceptions.RequestException` path, returning
  `None`), `cookieInvalid` (the "Cookie失效" sentinel string), or a parsed
  `soup`.  The date-range payload does not influence control flow and is
  therefore not part of the oracle's domain.
* Uncaught Python exceptions are modelled with `Except PyExn` and an explicit
  `RunResult.pyError` outcome.
* `print` calls are modelled as a log of `LogMsg` values; the optional
  `progress_callback` and `time.sleep(0.5)` are pure observers with no effect
  on the returned data and are not modelled.
* Python string methods are re-implemented structurally over `List Char`
  (every separator the source splits on is a single character), so that the
  embedding is executable inside the kernel.  Python integers are `Int`;
  `pd.to_numeric` string results are exact `Rat` values.
-/

/-- Whitespace characters stripped by Python `str.strip` (the ASCII ones;
the portal's markup contains no exotic unicode whitespace). -/
def pySpace (c : Char) : Bool :=
  c == ' ' || c == '\t' || c == '\n' || c == '\r' || c == '\x0b' || c == '\x0c'

/-- Python `s.strip()` on a character list: drop whitespace from both
ends. -/
def pyStripChars (l : List Char) : List Char :=
  ((l.dropWhile pySpace).reverse.dropWhile pySpace).reverse

/-- Python `s.strip()`. -/
def pyStrip (s : String) : String := ⟨pyStripChars s.data⟩

/-- Worker for Python `s.split(sep)` with a one-character separator:
`cur` is the reversed current fragment.  Like Python's `split`, the result
is always nonempty (splitting the empty string gives `[""]`). -/
def pySplitAux (sep : Char) : List Char → List Char → List (List Char)
  | [], cur => [cur.reverse]
  | c :: rest, cur =>
    if c == sep then cur.reverse :: pySplitAux sep rest []
    else pySplitAux sep rest (c :: cur)

/-- Python `s.split(sep)` for a one-character separator. -/
def pySplit (s : String) (sep : Char) : List String :=
  (pySplitAux sep s.data []).map (fun l => ⟨l⟩)

/-- Python `s.replace(c, '')` for a one-character pattern: remove every
occurrence. -/
def pyRemoveChar (s : String) (c : Char) : String :=
  ⟨s.data.filter (fun d => !(d == c))⟩

/-- Numeric value of a list of ASCII digits (most significant first). -/
def digitsVal (l : List Char) : Nat :=
  l.foldl (fun n c => 10 * n + (c.toNat - '0'.toNat)) 0

/-- Value of a digit run: `some` exactly when the list is a nonempty run of
ASCII digits. -/
def digitsToNat? (l : List Char) : Option Nat :=
  if !l.isEmpty && l.all Char.isDigit then some (digitsVal l) else none

/-- Python `int(s)` on an already-stripped character list: an optional single
sign followed by a nonempty digit run; anything else raises `ValueError`,
modelled as `none`.  (CPython additionally accepts unicode digits and
underscore separators; neither occurs in this portal's markup.) -/
def pyIntChars : List Char → Option Int
  | '-' :: rest => (digitsToNat? rest).map (fun n => -(n : Int))
  | '+' :: rest => (digitsToNat? rest).map (fun n => (n : Int))
  | l => (digitsToNat? l).map (fun n => (n : Int))

/-- Python `int(s)` on a string (`int` itself strips surrounding
whitespace): `some n` on success, `none` when `int` would raise
`ValueError`. -/
def pyInt (s : String) : Option Int := pyIntChars (pyStripChars s.data)

/-- Unsigned decimal numeral `a.b`: either side of the point may be empty
but not both; helper for `toNumeric`. -/
def decFrac (a b : List Char) : Option Rat :=
  if a.isEmpty && b.isEmpty then none
  else if (a.isEmpty || a.all Char.isDigit) && (b.isEmpty || b.all Char.isDigit) then
    some ((digitsVal a : Rat) + (digitsVal b : Rat) / ((10 : Rat) ^ b.length))
  else none

/-- Unsigned part of a numeric string: a digit run with at most one decimal
point. -/
def unsignedNumeric (l : List Char) : Option Rat :=
  match pySplitAux '.' l [] with
  | [a] => (digitsToNat? a).map (fun n => (n : Rat))
  | [a, b] => decFrac a b
  | _ => none

/-- Model of `pd.to_numeric(x, errors='coerce')` applied to one cell string:
`some q` when the string is a signed decimal numeral, `none` for the NaN
that coercion produces on anything else (scientific notation never occurs in
the portal's amount cells and is not modelled). -/
def toNumeric (s : String) : Option Rat :=
  match pyStripChars s.data with
  | '-' :: rest => (unsignedNumeric rest).map (fun q => -q)
  | '+' :: rest => unsignedNumeric rest
  | l => unsignedNumeric l

/-- Model of `math.ceil(a / b)` for integer `a`, `b` with `b > 0` (the only
way the source reaches the division): ceiling division expressed through
floor division. -/
def ceilDiv (a b : Int) : Int := -((-a).fdiv b)

/-- A child node of an HTML element as exposed by BeautifulSoup `.contents`:
either a text node (NavigableString) or a nested tag.  Calling `.strip()` on
a nested tag raises `AttributeError` in Python, which the model preserves. -/
inductive Node where
  | text (s : String)
  | tag
deriving DecidableEq

/-- One `<td>` cell, reduced to the pieces `parse_data_to_dataframe` queries:
its `.text`, its `.contents` list, and the `.text` of the first matching
descendant for each of the three `find` calls the source performs on cells
(`p.text-muted`, `strong.price`, `span`), `none` when `find` returns
`None`. -/
structure Td where
  text : String
  contents : List Node
  pTextMuted : Option String
  strongPrice : Option String
  spanText : Option String
deriving DecidableEq

/-- A cell holding only plain text. -/
def Td.plain (s : String) : Td := ⟨s, [Node.text s], none, none, none⟩

/-- One `<tr>` row: its list of `<td>` cells (the `tr.find_all('td')`
result). -/
structure Tr where
  tds : List Td
deriving DecidableEq

/-- The `<tbody>` of the results table: its `find_all('tr')` result. -/
structure Tbody where
  trs : List Tr
deriving DecidableEq

/-- The `<table class="table-hover">` element; `tbody` is the result of
`table.find('tbody')`. -/
structure TableHover where
  tbody : Option Tbody
deriving DecidableEq

/-- The `<input id="totalCount">` element; `value` is its `value` attribute
when present (`tag.get('value')`). -/
structure InputTag where
  value : Option String
deriving DecidableEq

/-- A parsed page as far as the source inspects it: the three top-level
`soup.find` queries of `parse_data_to_dataframe`.  `pageSizeText` is the
`.text` of the `<li class="list-num">` element when found.  BeautifulSoup
tags define `__bool__` as `True`, so the source's truthiness tests on these
results coincide with `Option.isSome`. -/
structure Soup where
  tableHover : Option TableHover
  totalCountInput : Option InputTag
  pageSizeText : Option String
deriving DecidableEq

/-- Uncaught Python exceptions that the modelled code can raise. -/
inductive PyExn where
  | indexError
  | attributeError
  | valueError
deriving DecidableEq

/-- One row as appended to `rows` in the source: all five fields still
strings (`[unit, full_time, content, amount, status]`). -/
structure RawRow where
  unit : String
  fullTime : String
  content : String
  amount : String
  status : String
deriving DecidableEq

/-- One row of the returned DataFrame after column coercion: the amount has
been through `pd.to_numeric` and survived `dropna`.  The 交易时间 column is
kept as the raw combined string, exactly as the source leaves it. -/
structure Record where
  unit : String
  fullTime : String
  content : String
  amount : Rat
  status : String
deriving DecidableEq

/-- Body of the `for tr in tbody.find_all('tr')` loop for one row
(scraper.py lines 99-116).  `ok none` is the `continue` for a row with fewer
than 5 cells; `error` is an uncaught exception: `time_cell.contents[0]`
raises `IndexError` on an empty cell and `.strip()` on a leading nested tag
raises `AttributeError`. -/
def parse_tr (tr : Tr) : Except PyExn (Option RawRow) :=
  match tr.tds with
  | c0 :: c1 :: c2 :: c3 :: c4 :: _ =>
    match c1.contents with
    | [] => .error .indexError
    | Node.tag :: _ => .error .attributeError
    | Node.text s :: _ =>
      let date_part := pyStrip s
      let time_part :=
        match c1.pTextMuted with
        | some t => pyStrip t
        | none => ""
      let full_time := date_part ++ " " ++ time_part
      let amount :=
        match c3.strongPrice with
        | some t => pyStrip t
        | none => pyStrip c3.text
      let status :=
        match c4.spanText with
        | some t => pyStrip t
        | none => pyStrip c4.text
      .ok (some { unit := pyStrip c0.text, fullTime := full_time,
                  content := pyStrip c2.text, amount := amount, status := status })
  | _ => .ok none

/-- The whole row loop: the first raised exception propagates, skipped rows
contribute nothing. -/
def parse_trs : List Tr → Except PyExn (List RawRow)
  | [] => .ok []
  | tr :: rest => do
    let r ← parse_tr tr
    let rs ← parse_trs rest
    match r with
    | some row => pure (row :: rs)
    | none => pure rs

/-- Column coercion of one raw row (scraper.py line 127): `none` models the
NaN that `pd.to_numeric(errors='coerce')` leaves in the amount column. -/
def coerceAmount (r : RawRow) : Option Record :=
  (toNumeric r.amount).map (fun q =>
    { unit := r.unit, fullTime := r.fullTime, content := r.content, amount := q,
      status := r.status })

/-- Model of `df.dropna(subset=['交易时间', '交易金额(元)'])` (line 130):
the 交易时间 column holds the raw `full_time` string and a string cell is
never NaN, so only rows whose amount failed numeric coercion are dropped. -/
def cleanRows (rows : List RawRow) : List Record :=
  rows.filterMap coerceAmount

/-- Embedding of `parse_data_to_dataframe` (scraper.py lines 85-132): the
record list of the returned DataFrame plus the two pagination-hint query
results.  When the table or its tbody is absent the source returns
`(empty DataFrame, None, None)` before ever querying the hints. -/
def parse_data_to_dataframe (soup : Soup) :
    Except PyExn (List Record × Option InputTag × Option String) :=
  match soup.tableHover with
  | none => .ok ([], none, none)
  | some table =>
    match table.tbody with
    | none => .ok ([], none, none)
    | some tbody => do
      let raws ← parse_trs tbody.trs
      pure (cleanRows raws, soup.totalCountInput, soup.pageSizeText)

/-- Model of `int(total_count_input.get('value', 0))` (line 163): an absent
`value` attribute yields the default `0` (already an int); a present value
goes through `int(...)`, whose `ValueError` is NOT caught by the source
(`none` here therefore becomes an uncaught exception in `get_all_bills`). -/
def totalCountOf (inp : InputTag) : Option Int :=
  match inp.value with
  | none => some 0
  | some v => pyInt v

/-- The page-size extraction of lines 166-168:
`text.split(',')[0].split('-')[1].replace('条','').strip()` followed by
`int(...)`.  `split` always returns a nonempty list, so the `[0]` index is
total; a missing `-` makes `[1]` raise `IndexError`, which — like the
`ValueError` from `int` — is caught by the source's `except` and modelled as
`none`. -/
def parse_page_size (t : String) : Option Int :=
  match pySplit ((pySplit t ',').headD "") '-' with
  | _ :: s :: _ => pyInt (pyStrip (pyRemoveChar s '条'))
  | _ => none

/-- The effective page size (lines 164-170): the parsed value, or the
default 20 whenever the split/parse failed (the source then prints a warning
and keeps the default). -/
def pageSizeOf (t : String) : Int := (parse_page_size t).getD 20

/-- Classified outcome of `fetch_bill_data` for one page (scraper.py lines
71-82): `netError` is the `None` returned on `RequestException`,
`cookieInvalid` the "Cookie失效" sentinel for an authentication failure
(login redirect or 统一身份认证 marker), `soup` a parsed response body. -/
inductive FetchResult where
  | netError
  | cookieInvalid
  | soup (s : Soup)

/-- Outcome of `get_all_bills`: `netFail` is the `None` return (page-1
network error), `cookieFail` the "Cookie失效" sentinel, `pyError` an
uncaught Python exception propagating out, `data` a returned DataFrame as
its record list. -/
inductive RunResult where
  | netFail
  | cookieFail
  | pyError (e : PyExn)
  | data (records : List Record)
deriving DecidableEq

/-- The console messages `get_all_bills` (and the fetch helper) print, used
here as the observable trace of the run; `fetchingPage n` is emitted exactly
when page `n` is requested. -/
inductive LogMsg where
  | fetchingPage (page : Nat)
  | netErrorOnPage (page : Nat)
  | noDataPage1
  | warnNoPagination
  | warnPageSize (labelText : String)
  | foundTotals (totalCount totalPages : Int)
  | skipPage (page : Nat)
  | allDone (total : Nat)
deriving DecidableEq

/-- The `for page in range(2, total_pages + 1)` loop of lines 179-198 plus
the final `pd.concat` of line 201, over the list of remaining page numbers.
A `None` fetch result skips the page (`continue`); "Cookie失效" returns the
sentinel immediately, discarding the accumulator; a parse exception
propagates; otherwise the page's records are appended when nonempty. -/
def pageLoop (fetch : Nat → FetchResult) : List Nat → List Record → RunResult × List LogMsg
  | [], acc => (.data acc, [.allDone acc.length])
  | p :: rest, acc =>
    match fetch p with
    | .netError =>
      ((pageLoop fetch rest acc).1,
        .fetchingPage p :: .netErrorOnPage p :: .skipPage p :: (pageLoop fetch rest acc).2)
    | .cookieInvalid => (.cookieFail, [.fetchingPage p])
    | .soup s =>
      match parse_data_to_dataframe s with
      | .error e => (.pyError e, [.fetchingPage p])
      | .ok (recs, _, _) =>
        ((pageLoop fetch rest (if recs.isEmpty then acc else acc ++ recs)).1,
          .fetchingPage p :: (pageLoop fetch rest (if recs.isEmpty then acc else acc ++ recs)).2)

/-- Embedding of `get_all_bills` (scraper.py lines 135-205) over a fetch
oracle.  Faithful points: the empty-page-1 check precedes the hint check;
hint truthiness is `Option.isSome`; `int` on the total-count value can
raise; the zero guard (line 172) precedes the ceiling division (line 175);
`range(2, total_pages + 1)` is empty whenever `total_pages ≤ 1`, so the
`if total_pages > 1` guard is represented by the emptiness of the page
list. -/
def get_all_bills (fetch : Nat → FetchResult) : RunResult × List LogMsg :=
  match fetch 1 with
  | .netError => (.netFail, [.fetchingPage 1, .netErrorOnPage 1])
  | .cookieInvalid => (.cookieFail, [.fetchingPage 1])
  | .soup soup1 =>
    match parse_data_to_dataframe soup1 with
    | .error e => (.pyError e, [.fetchingPage 1])
    | .ok (df1, totalCountInput, pageSizeText) =>
      if df1.isEmpty then (.data [], [.fetchingPage 1, .noDataPage1])
      else
        match totalCountInput, pageSizeText with
        | some tci, some pst =>
          (match totalCountOf tci with
           | none => (.pyError .valueError, [.fetchingPage 1])
           | some total_count =>
             let page_size := pageSizeOf pst
             let psLog : List LogMsg :=
               if (parse_page_size pst).isNone then [.warnPageSize pst] else []
             if total_count = 0 ∨ page_size = 0 then
               (.data df1, .fetchingPage 1 :: psLog)
             else
               let total_pages := ceilDiv total_count page_size
               let pages := List.range' 2 (total_pages - 1).toNat
               ((pageLoop fetch pages df1).1,
                 .fetchingPage 1 :: (psLog ++ .foundTotals total_count total_pages ::
                   (pageLoop fetch pages df1).2)))
        | _, _ => (.data df1, [.fetchingPage 1, .warnNoPagination])

/-- A page outcome that does not abort the remaining-page loop: either the
skip path (network error) or a soup whose parse raises no exception. -/
def goodPage (fr : FetchResult) : Bool :=
  match fr with
  | .netError => true
  | .cookieInvalid => false
  | .soup s =>
    match parse_data_to_dataframe s with
    | .ok _ => true
    | .error _ => false

/-- Records one page contributes to the final concatenation: a skipped or
aborting page contributes nothing. -/
def pageContrib (fr : FetchResult) : List Record :=
  match fr with
  | .soup s =>
    match parse_data_to_dataframe s with
    | .ok (recs, _, _) => recs
    | .error _ => []
  | _ => []

/-- Fetching a page flagged "Cookie失效" anywhere in the remaining-page loop
makes the whole loop return the sentinel. -/
theorem pageLoop_cookie_abort (fetch : Nat → FetchResult) (p : Nat) :
    ∀ (pages : List Nat) (acc : List Record),
      LogMsg.fetchingPage p ∈ (pageLoop fetch pages acc).2 →
      fetch p = .cookieInvalid →
      (pageLoop fetch pages acc).1 = .cookieFail := by
  intro pages
  induction pages with
  | nil =>
    intro acc hmem _
    simp [pageLoop] at hmem
  | cons q rest ih =>
    intro acc hmem hfp
    cases hq : fetch q with
    | netError =>
      simp only [pageLoop, hq] at hmem ⊢
      simp only [List.mem_cons] at hmem
      rcases hmem with h | h | h | h
      · injection h with h'
        subst h'
        simp [hfp] at hq
      · cases h
      · cases h
      · exact ih acc h hfp
    | cookieInvalid =>
      simp [pageLoop, hq]
    | soup s =>
      cases hps : parse_data_to_dataframe s with
      | error e =>
        simp only [pageLoop, hq, hps] at hmem ⊢
        simp only [List.mem_cons, List.not_mem_nil, or_false] at hmem
        injection hmem with h'
        subst h'
        simp [hfp] at hq
      | ok v =>
        obtain ⟨recs, hintA, hintB⟩ := v
        simp only [pageLoop, hq, hps] at hmem ⊢
        simp only [List.mem_cons] at hmem
        rcases hmem with h | h
        · injection h with h'
          subst h'
          simp [hfp] at hq
        · exact ih _ h hfp

/-- When every remaining page is non-aborting, the loop completes and the
final dataset is the accumulator followed by each page's contribution in
page order. -/
theorem pageLoop_good_fst (fetch : Nat → FetchResult) :
    ∀ (pages : List Nat) (acc : List Record),
      (∀ q ∈ pages, goodPage (fetch q) = true) →
      (pageLoop fetch pages acc).1 =
        .data (acc ++ pages.flatMap (fun q => pageContrib (fetch q))) := by
  intro pages
  induction pages with
  | nil =>
    intro acc _
    simp [pageLoop]
  | cons q rest ih =>
    intro acc hGood
    have hq1 : goodPage (fetch q) = true := hGood q (by simp)
    have hrest : ∀ r ∈ rest, goodPage (fetch r) = true := fun r hr => hGood r (by simp [hr])
    cases hq : fetch q with
    | netError =>
      simp only [pageLoop, hq, List.flatMap_cons]
      rw [ih acc hrest]
      simp [pageContrib, hq]
    | cookieInvalid =>
      simp [goodPage, hq] at hq1
    | soup s =>
      cases hps : parse_data_to_dataframe s with
      | error e =>
        simp [goodPage, hq, hps] at hq1
      | ok v =>
        obtain ⟨recs, hintA, hintB⟩ := v
        simp only [pageLoop, hq, hps, List.flatMap_cons]
        rw [ih _ hrest]
        by_cases hre : recs.isEmpty = true
        · have hnil : recs = [] := List.isEmpty_iff.mp hre
          subst hnil
          simp [pageContrib, hq, hps]
        · simp only [hre, if_false, Bool.false_eq_true]
          simp [pageContrib, hq, hps, List.append_assoc]

/-- When every remaining page is non-aborting, the loop requests exactly the
pages of its worklist. -/
theorem pageLoop_good_mem (fetch : Nat → FetchResult) (p : Nat) :
    ∀ (pages : List Nat) (acc : List Record),
      (∀ q ∈ pages, goodPage (fetch q) = true) →
      (LogMsg.fetchingPage p ∈ (pageLoop fetch pages acc).2 ↔ p ∈ pages) := by
  intro pages
  induction pages with
  | nil =>
    intro acc _
    simp [pageLoop]
  | cons q rest ih =>
    intro acc hGood
    have hq1 : goodPage (fetch q) = true := hGood q (by simp)
    have hrest : ∀ r ∈ rest, goodPage (fetch r) = true := fun r hr => hGood r (by simp [hr])
    cases hq : fetch q with
    | netError =>
      simp only [pageLoop, hq]
      simp [ih acc hrest]
    | cookieInvalid =>
      simp [goodPage, hq] at hq1
    | soup s =>
      cases hps : parse_data_to_dataframe s with
      | error e =>
        simp [goodPage, hq, hps] at hq1
      | ok v =>
        obtain ⟨recs, hintA, hintB⟩ := v
        simp only [pageLoop, hq, hps]
        simp [ih _ hrest]

/-- Unfolding of the run when the page-1 request fails at transport level. -/
theorem get_all_bills_net1 (fetch : Nat → FetchResult) (h : fetch 1 = .netError) :
    get_all_bills fetch = (.netFail, [.fetchingPage 1, .netErrorOnPage 1]) := by
  unfold get_all_bills
  rw [h]

/-- Unfolding of the run when page 1 is flagged "Cookie失效". -/
theorem get_all_bills_cookie1 (fetch : Nat → FetchResult) (h : fetch 1 = .cookieInvalid) :
    get_all_bills fetch = (.cookieFail, [.fetchingPage 1]) := by
  unfold get_all_bills
  rw [h]

/-- Unfolding of the run when page 1 parses to zero records. -/
theorem get_all_bills_nodata (fetch : Nat → FetchResult) (s : Soup)
    (hintA : Option InputTag) (hintB : Option String)
    (h1 : fetch 1 = .soup s)
    (hp : parse_data_to_dataframe s = .ok ([], hintA, hintB)) :
    get_all_bills fetch = (.data [], [.fetchingPage 1, .noDataPage1]) := by
  simp only [get_all_bills, h1, hp, List.isEmpty_nil, if_true]

/-- Unfolding of the run when page 1 has records but a pagination hint
element is missing. -/
theorem get_all_bills_nohints (fetch : Nat → FetchResult) (s : Soup) (df1 : List Record)
    (hintA : Option InputTag) (hintB : Option String)
    (h1 : fetch 1 = .soup s)
    (hp : parse_data_to_dataframe s = .ok (df1, hintA, hintB))
    (hne : df1 ≠ [])
    (hmiss : hintA = none ∨ hintB = none) :
    get_all_bills fetch = (.data df1, [.fetchingPage 1, .warnNoPagination]) := by
  have hie : df1.isEmpty = false := List.isEmpty_eq_false.mpr hne
  rcases hmiss with rfl | rfl
  · simp [get_all_bills, h1, hp, hie]
  · cases hintA with
    | none => simp [get_all_bills, h1, hp, hie]
    | some tci => simp [get_all_bills, h1, hp, hie]

/-- Unfolding of the run when the total-count value attribute fails `int`:
the `ValueError` propagates uncaught. -/
theorem get_all_bills_value_error (fetch : Nat → FetchResult) (s : Soup) (df1 : List Record)
    (tci : InputTag) (pst : String)
    (h1 : fetch 1 = .soup s)
    (hp : parse_data_to_dataframe s = .ok (df1, some tci, some pst))
    (hne : df1 ≠ [])
    (htc : totalCountOf tci = none) :
    get_all_bills fetch = (.pyError .valueError, [.fetchingPage 1]) := by
  have hie : df1.isEmpty = false := List.isEmpty_eq_false.mpr hne
  simp [get_all_bills, h1, hp, hie, htc]

/-- Unfolding of the run when the zero guard of line 172 fires: page 1's
records are returned before the ceiling division is ever reached. -/
theorem get_all_bills_zero_guard (fetch : Nat → FetchResult) (s : Soup) (df1 : List Record)
    (tci : InputTag) (pst : String) (tc : Int)
    (h1 : fetch 1 = .soup s)
    (hp : parse_data_to_dataframe s = .ok (df1, some tci, some pst))
    (hne : df1 ≠ [])
    (htc : totalCountOf tci = some tc)
    (hz : tc = 0 ∨ pageSizeOf pst = 0) :
    get_all_bills fetch =
      (.data df1, .fetchingPage 1 ::
        (if (parse_page_size pst).isNone then [LogMsg.warnPageSize pst] else [])) := by
  have hie : df1.isEmpty = false := List.isEmpty_eq_false.mpr hne
  have hz2 : tc = 0 ∨ pageSizeOf pst = 0 := hz
  simp only [get_all_bills, h1, hp, hie, Bool.false_eq_true, if_false, htc]
  rw [if_pos hz2]

/-- Unfolding of the run on the paging path: both hints present, the total
count parses, and the zero guard does not fire. -/
theorem get_all_bills_paging (fetch : Nat → FetchResult) (s1 : Soup) (df1 : List Record)
    (tci : InputTag) (pst : String) (tc : Int)
    (h1 : fetch 1 = .soup s1)
    (hp : parse_data_to_dataframe s1 = .ok (df1, some tci, some pst))
    (hne : df1 ≠ [])
    (htc : totalCountOf tci = some tc)
    (htc0 : tc ≠ 0)
    (hps0 : pageSizeOf pst ≠ 0) :
    get_all_bills fetch =
      ((pageLoop fetch (List.range' 2 ((ceilDiv tc (pageSizeOf pst)) - 1).toNat) df1).1,
        .fetchingPage 1 ::
          ((if (parse_page_size pst).isNone then [LogMsg.warnPageSize pst] else []) ++
            .foundTotals tc (ceilDiv tc (pageSizeOf pst)) ::
              (pageLoop fetch (List.range' 2 ((ceilDiv tc (pageSizeOf pst)) - 1).toNat) df1).2)) := by
  have hie : df1.isEmpty = false := List.isEmpty_eq_false.mpr hne
  have hguard : ¬(tc = 0 ∨ pageSizeOf pst = 0) := not_or.mpr ⟨htc0, hps0⟩
  simp only [get_all_bills, h1, hp, hie, Bool.false_eq_true, if_false, htc]
  rw [if_neg hguard]

/-- C7: for every run in which the page-1 fetch suffers a transport failure
(network exception, timeout, or non-2xx status — the paths on which
`fetch_bill_data` returns `None`), `get_all_bills` terminates with the
failure outcome (`None`), a value distinct from every returned dataset and
in particular from the empty dataset of the no-data outcome. -/
theorem c7_page1_transport_failure_is_failed (fetch : Nat → FetchResult)
    (h : fetch 1 = .netError) :
    (get_all_bills fetch).1 = .netFail ∧ (∀ d, RunResult.netFail ≠ .data d) := by
  refine ⟨?_, ?_⟩
  · rw [get_all_bills_net1 fetch h]
  · intro d h'
    cases h'

/-- Witness for c7: a concrete run whose every fetch fails at transport
level. -/
theorem c7_page1_transport_failure_is_failed_witness :
    (get_all_bills (fun _ => .netError)).1 = .netFail ∧
      (∀ d, RunResult.netFail ≠ .data d) :=
  c7_page1_transport_failure_is_failed (fun _ => .netError) rfl

/-- C8: for every run where page 1 yields at least one record but either
pagination-hint element (total-count input or page-size label) was not
found, `get_all_bills` returns exactly page 1's records and prints the
pagination warning, rather than failing. -/
theorem c8_missing_hints_return_page1_with_warning (fetch : Nat → FetchResult)
    (s : Soup) (df1 : List Record) (hintA : Option InputTag) (hintB : Option String)
    (h1 : fetch 1 = .soup s)
    (hp : parse_data_to_dataframe s = .ok (df1, hintA, hintB))
    (hne : df1 ≠ [])
    (hmiss : hintA = none ∨ hintB = none) :
    (get_all_bills fetch).1 = .data df1 ∧
      LogMsg.warnNoPagination ∈ (get_all_bills fetch).2 := by
  rw [get_all_bills_nohints fetch s df1 hintA hintB h1 hp hne hmiss]
  exact ⟨rfl, by simp⟩

/-- Sample page for the c8 witness: one parseable row, page-size label
present, but no totalCount input. -/
def c8Soup : Soup :=
  ⟨some ⟨some ⟨[⟨[Td.plain "食堂",
      ⟨"x", [Node.text "2024-03-04"], some "08:15:00", none, none⟩,
      Td.plain "消费", ⟨"-6", [], none, some "-6", none⟩,
      ⟨"成功", [], none, none, some "成功"⟩]⟩]⟩⟩,
    none, some "显示 1-20条,共45条"⟩

/-- Fetch oracle for the c8 witness. -/
def c8Fetch : Nat → FetchResult := fun _ => .soup c8Soup

/-- Witness for c8: the concrete run returns page 1's single record with
the warning in the log. -/
theorem c8_missing_hints_return_page1_with_warning_witness :
    (get_all_bills c8Fetch).1 =
        .data [⟨"食堂", "2024-03-04 08:15:00", "消费", -6, "成功"⟩] ∧
      LogMsg.warnNoPagination ∈ (get_all_bills c8Fetch).2 :=
  c8_missing_hints_return_page1_with_warning c8Fetch c8Soup
    [⟨"食堂", "2024-03-04 08:15:00", "消费", -6, "成功"⟩]
    none (some "显示 1-20条,共45条") rfl (by rfl) (by decide) (Or.inl rfl)

/-- Page-1 markup for the c9 counterexample, first input: a results table
with zero data rows but both pagination-hint elements present in the
markup. -/
def c9Soup : Soup := ⟨some ⟨some ⟨[]⟩⟩, some ⟨some "45"⟩, some "显示 1-20条,共45条"⟩

/-- Page-1 markup for the c9 counterexample, second input: the table's only
data row has 5 cells but its time cell has no contents, so the page
contains zero parseable data rows yet `time_cell.contents[0]` raises an
uncaught IndexError. -/
def c9CrashSoup : Soup :=
  ⟨some ⟨some ⟨[⟨[Td.plain "食堂", ⟨"", [], none, none, none⟩,
      Td.plain "消费", ⟨"-3", [], none, some "-3", none⟩,
      ⟨"成功", [], none, none, some "成功"⟩]⟩]⟩⟩,
    some ⟨some "45"⟩, some "显示 1-20条,共45条"⟩

/-- Fetch oracle for the c9 counterexample's second input. -/
def c9CrashFetch : Nat → FetchResult := fun _ => .soup c9CrashSoup

/-- C9 counterexample, refuting both parts of the claim on in-scope inputs.
On a page whose results table contains zero data rows, parse still extracts
and returns the pagination-hint elements, so its output is not "(empty
record sequence, no pagination hint)".  And on a page whose only data row
has 5 cells but an empty time cell — also zero parseable data rows — the
run does not end in the NoData outcome at all: the uncaught IndexError from
`time_cell.contents[0]` propagates, so "never an error" fails too. -/
theorem c9_zero_rows_extracts_hints_or_raises :
    (parse_data_to_dataframe c9Soup =
        .ok ([], some ⟨some "45"⟩, some "显示 1-20条,共45条") ∧
      (some (⟨some "45"⟩ : InputTag) ≠ (none : Option InputTag))) ∧
    (get_all_bills c9CrashFetch).1 = .pyError .indexError ∧
      (∀ d, RunResult.pyError .indexError ≠ .data d) :=
  ⟨⟨rfl, by simp⟩, by decide, fun d h' => by cases h'⟩

/-- C9 (amended): when the results table is absent, parse returns
`(empty, none, none)`.  Whenever page-1 parsing completes without an
exception and yields zero records (the hint elements, if present, are still
extracted), the run returns the empty dataset, an outcome distinct from the
transport-failure outcome.  This NoData outcome does not cover every markup
with zero parseable data rows, though: a data row with at least 5 cells
whose time cell has no contents makes `parse_tr` raise the uncaught
IndexError of `time_cell.contents[0]`, and a row-loop exception on page 1
makes the whole run halt with that exception instead. -/
theorem c9_empty_parse_nodata_or_uncaught_indexerror :
    (∀ s : Soup, s.tableHover = none →
      parse_data_to_dataframe s = .ok ([], none, none)) ∧
    (∀ (fetch : Nat → FetchResult) (s : Soup)
        (hintA : Option InputTag) (hintB : Option String),
      fetch 1 = .soup s → parse_data_to_dataframe s = .ok ([], hintA, hintB) →
      (get_all_bills fetch).1 = .data [] ∧ ∀ d, RunResult.data d ≠ .netFail) ∧
    (∀ (tr : Tr) (c0 c1 c2 c3 c4 : Td) (rest : List Td),
      tr.tds = c0 :: c1 :: c2 :: c3 :: c4 :: rest → c1.contents = [] →
      parse_tr tr = .error .indexError) ∧
    (∀ (fetch : Nat → FetchResult) (s : Soup) (t : TableHover) (tb : Tbody) (e : PyExn),
      fetch 1 = .soup s → s.tableHover = some t → t.tbody = some tb →
      parse_trs tb.trs = .error e → (get_all_bills fetch).1 = .pyError e) := by
  refine ⟨?_, ?_, ?_, ?_⟩
  · intro s ht
    simp [parse_data_to_dataframe, ht]
  · intro fetch s hintA hintB h1 hp
    refine ⟨?_, ?_⟩
    · rw [get_all_bills_nodata fetch s hintA hintB h1 hp]
    · intro d h'
      cases h'
  · intro tr c0 c1 c2 c3 c4 rest htds hc1
    simp [parse_tr, htds, hc1]
  · intro fetch s t tb e h1 ht htb herr
    have hp : parse_data_to_dataframe s = .error e := by
      simp [parse_data_to_dataframe, ht, htb, herr, Except.bind]
    simp [get_all_bills, h1, hp]

/-- Fetch oracle for the c9 witness: every page has no results table at
all. -/
def c9wFetch : Nat → FetchResult := fun _ => .soup ⟨none, none, none⟩

/-- Witness for c9: the concrete table-less run yields the empty dataset,
and the concrete run whose only row has an empty time cell halts with the
uncaught IndexError. -/
theorem c9_empty_parse_nodata_or_uncaught_indexerror_witness :
    ((get_all_bills c9wFetch).1 = .data [] ∧ (∀ d, RunResult.data d ≠ .netFail)) ∧
      (get_all_bills c9CrashFetch).1 = .pyError .indexError :=
  ⟨c9_empty_parse_nodata_or_uncaught_indexerror.2.1 c9wFetch ⟨none, none, none⟩
      none none rfl rfl,
    c9_empty_parse_nodata_or_uncaught_indexerror.2.2.2 c9CrashFetch c9CrashSoup
      ⟨some ⟨[⟨[Td.plain "食堂", ⟨"", [], none, none, none⟩,
          Td.plain "消费", ⟨"-3", [], none, some "-3", none⟩,
          ⟨"成功", [], none, none, some "成功"⟩]⟩]⟩⟩
      ⟨[⟨[Td.plain "食堂", ⟨"", [], none, none, none⟩,
          Td.plain "消费", ⟨"-3", [], none, some "-3", none⟩,
          ⟨"成功", [], none, none, some "成功"⟩]⟩]⟩
      .indexError rfl rfl rfl (by rfl)⟩

/-- C10: whenever page 1's hints parse to `total_count = 0` or
`page_size = 0`, the run returns page 1's records straight away: the guard
of line 172 returns before the ceiling division of line 175 is reached, so
no division by zero can occur. -/
theorem c10_zero_hints_return_page1 (fetch : Nat → FetchResult) (s : Soup)
    (df1 : List Record) (tci : InputTag) (pst : String) (tc : Int)
    (h1 : fetch 1 = .soup s)
    (hp : parse_data_to_dataframe s = .ok (df1, some tci, some pst))
    (hne : df1 ≠ [])
    (htc : totalCountOf tci = some tc)
    (hz : tc = 0 ∨ pageSizeOf pst = 0) :
    (get_all_bills fetch).1 = .data df1 := by
  rw [get_all_bills_zero_guard fetch s df1 tci pst tc h1 hp hne htc hz]

/-- Sample page for the c10 witness: one parseable row, total count 45, and
a page-size label that parses to 0. -/
def c10Soup : Soup :=
  ⟨some ⟨some ⟨[⟨[Td.plain "食堂",
      ⟨"x", [Node.text "2024-05-06"], some "11:45:00", none, none⟩,
      Td.plain "消费", ⟨"-7", [], none, some "-7", none⟩,
      ⟨"成功", [], none, none, some "成功"⟩]⟩]⟩⟩,
    some ⟨some "45"⟩, some "显示 1-0条,共45条"⟩

/-- Fetch oracle for the c10 witness. -/
def c10Fetch : Nat → FetchResult := fun _ => .soup c10Soup

/-- Witness for c10: with a page-size label parsing to 0 the concrete run
returns page 1's single record and no division is performed. -/
theorem c10_zero_hints_return_page1_witness :
    pageSizeOf "显示 1-0条,共45条" = 0 ∧
      (get_all_bills c10Fetch).1 =
        .data [⟨"食堂", "2024-05-06 11:45:00", "消费", -7, "成功"⟩] :=
  ⟨by decide,
    c10_zero_hints_return_page1 c10Fetch c10Soup
      [⟨"食堂", "2024-05-06 11:45:00", "消费", -7, "成功"⟩]
      ⟨some "45"⟩ "显示 1-0条,共45条" 45 rfl (by rfl) (by decide) (by decide)
      (Or.inr (by decide))⟩

/-- Sample page for the c4 counterexample: one parseable row, and a
totalCount input whose value attribute is present but not an integer. -/
def c4Soup : Soup :=
  ⟨some ⟨some ⟨[⟨[Td.plain "食堂",
      ⟨"x", [Node.text "2024-07-08"], some "18:30:00", none, none⟩,
      Td.plain "消费", ⟨"-8", [], none, some "-8", none⟩,
      ⟨"成功", [], none, none, some "成功"⟩]⟩]⟩⟩,
    some ⟨some "abc"⟩, some "显示 1-20条,共45条"⟩

/-- Fetch oracle for the c4 counterexample. -/
def c4Fetch : Nat → FetchResult := fun _ => .soup c4Soup

/-- C4 counterexample: with the total-count value attribute present but not
a parseable integer ("abc"), the run does NOT degrade gracefully — the
uncaught ValueError from `int(...)` propagates and no dataset is
returned. -/
theorem c4_unparseable_total_count_raises :
    (get_all_bills c4Fetch).1 = .pyError .valueError ∧
      (∀ d, RunResult.pyError .valueError ≠ .data d) := by
  refine ⟨by decide, ?_⟩
  intro d h'
  cases h'

/-- C4 (amended): if the total-count value attribute is ABSENT, the
`.get('value', 0)` default makes `total_count = 0` and the run degrades
gracefully, returning page 1's records; if the value is present but not a
parseable integer, `int()` raises an uncaught ValueError and the run fails
with that exception. -/
theorem c4_absent_value_defaults_zero (fetch : Nat → FetchResult) (s : Soup)
    (df1 : List Record) (tci : InputTag) (pst : String)
    (h1 : fetch 1 = .soup s)
    (hp : parse_data_to_dataframe s = .ok (df1, some tci, some pst))
    (hne : df1 ≠ []) :
    (tci.value = none →
      totalCountOf tci = some 0 ∧ (get_all_bills fetch).1 = .data df1) ∧
    (∀ v, tci.value = some v → pyInt v = none →
      (get_all_bills fetch).1 = .pyError .valueError) := by
  constructor
  · intro hv
    have htc : totalCountOf tci = some 0 := by simp [totalCountOf, hv]
    refine ⟨htc, ?_⟩
    rw [get_all_bills_zero_guard fetch s df1 tci pst 0 h1 hp hne htc (Or.inl rfl)]
  · intro v hv hpi
    have htc : totalCountOf tci = none := by simp [totalCountOf, hv, hpi]
    rw [get_all_bills_value_error fetch s df1 tci pst h1 hp hne htc]

/-- Sample page for the c4 witness: like the counterexample page, but the
totalCount input carries no value attribute. -/
def c4wSoup : Soup :=
  ⟨some ⟨some ⟨[⟨[Td.plain "食堂",
      ⟨"x", [Node.text "2024-07-08"], some "18:30:00", none, none⟩,
      Td.plain "消费", ⟨"-8", [], none, some "-8", none⟩,
      ⟨"成功", [], none, none, some "成功"⟩]⟩]⟩⟩,
    some ⟨none⟩, some "显示 1-20条,共45条"⟩

/-- Fetch oracle for the c4 witness. -/
def c4wFetch : Nat → FetchResult := fun _ => .soup c4wSoup

/-- Witness for c4: applying the amended theorem at the concrete
absent-value page yields total_count 0 and page 1's records. -/
theorem c4_absent_value_defaults_zero_witness :
    totalCountOf ⟨none⟩ = some 0 ∧
      (get_all_bills c4wFetch).1 =
        .data [⟨"食堂", "2024-07-08 18:30:00", "消费", -8, "成功"⟩] :=
  (c4_absent_value_defaults_zero c4wFetch c4wSoup
    [⟨"食堂", "2024-07-08 18:30:00", "消费", -8, "成功"⟩]
    ⟨none⟩ "显示 1-20条,共45条" rfl (by rfl) (by decide)).1 rfl

/-- C3: for every run in which some actually-requested page's fetch response
is classified as an authentication failure ("Cookie失效"), `get_all_bills`
returns the authentication-failure sentinel instead of any dataset — the
records accumulated from earlier pages are discarded. -/
theorem c3_auth_failure_aborts_run (fetch : Nat → FetchResult) (p : Nat)
    (hmem : LogMsg.fetchingPage p ∈ (get_all_bills fetch).2)
    (hfp : fetch p = .cookieInvalid) :
    (get_all_bills fetch).1 = .cookieFail ∧ ∀ d, (get_all_bills fetch).1 ≠ .data d := by
  have hmain : (get_all_bills fetch).1 = .cookieFail := by
    cases h1 : fetch 1 with
    | netError =>
      rw [get_all_bills_net1 fetch h1] at hmem
      simp at hmem
      subst hmem
      simp [h1] at hfp
    | cookieInvalid =>
      rw [get_all_bills_cookie1 fetch h1]
    | soup s =>
      cases hps : parse_data_to_dataframe s with
      | error e =>
        have hrun : get_all_bills fetch = (.pyError e, [.fetchingPage 1]) := by
          simp only [get_all_bills, h1, hps]
        rw [hrun] at hmem
        simp at hmem
        subst hmem
        simp [h1] at hfp
      | ok v =>
        obtain ⟨df1, hintA, hintB⟩ := v
        by_cases hdf : df1.isEmpty = true
        · have hdf0 : df1 = [] := List.isEmpty_iff.mp hdf
          subst hdf0
          rw [get_all_bills_nodata fetch s hintA hintB h1 hps] at hmem
          simp at hmem
          subst hmem
          simp [h1] at hfp
        · have hne : df1 ≠ [] := by
            intro h0
            subst h0
            simp at hdf
          cases hintA with
          | none =>
            rw [get_all_bills_nohints fetch s df1 none hintB h1 hps hne (Or.inl rfl)] at hmem
            simp at hmem
            subst hmem
            simp [h1] at hfp
          | some tci =>
            cases hintB with
            | none =>
              rw [get_all_bills_nohints fetch s df1 (some tci) none h1 hps hne
                (Or.inr rfl)] at hmem
              simp at hmem
              subst hmem
              simp [h1] at hfp
            | some pst =>
              cases htc : totalCountOf tci with
              | none =>
                rw [get_all_bills_value_error fetch s df1 tci pst h1 hps hne htc] at hmem
                simp at hmem
                subst hmem
                simp [h1] at hfp
              | some tc =>
                by_cases hz : tc = 0 ∨ pageSizeOf pst = 0
                · rw [get_all_bills_zero_guard fetch s df1 tci pst tc h1 hps hne htc hz]
                    at hmem
                  by_cases hpn : (parse_page_size pst).isNone = true
                  · simp [hpn] at hmem
                    subst hmem
                    simp [h1] at hfp
                  · simp [hpn] at hmem
                    subst hmem
                    simp [h1] at hfp
                · push_neg at hz
                  obtain ⟨htc0, hps0⟩ := hz
                  rw [get_all_bills_paging fetch s df1 tci pst tc h1 hps hne htc htc0 hps0]
                    at hmem ⊢
                  simp only [List.mem_cons, List.mem_append] at hmem
                  have hloopmem :
                      LogMsg.fetchingPage p ∈
                        (pageLoop fetch
                          (List.range' 2 ((ceilDiv tc (pageSizeOf pst)) - 1).toNat) df1).2 := by
                    rcases hmem with h | h
                    · injection h with h0
                      subst h0
                      simp [h1] at hfp
                    · rcases h with h | h
                      · by_cases hpn : (parse_page_size pst).isNone = true
                        · simp [hpn] at h
                        · simp [hpn] at h
                      · rcases h with h | h
                        · cases h
                        · exact h
                  exact pageLoop_cookie_abort fetch p _ df1 hloopmem hfp
  exact ⟨hmain, fun d h' => by rw [hmain] at h'; cases h'⟩

/-- Page for the c3 witness: three pages' worth of hints, one parseable
row. -/
def c3Soup : Soup :=
  ⟨some ⟨some ⟨[⟨[Td.plain "食堂",
      ⟨"x", [Node.text "2024-09-10"], some "12:05:00", none, none⟩,
      Td.plain "消费", ⟨"-9", [], none, some "-9", none⟩,
      ⟨"成功", [], none, none, some "成功"⟩]⟩]⟩⟩,
    some ⟨some "45"⟩, some "显示 1-20条,共45条"⟩

/-- Fetch oracle for the c3 witness: page 1 succeeds, page 2 is flagged
"Cookie失效". -/
def c3Fetch : Nat → FetchResult := fun pg =>
  if pg = 1 then .soup c3Soup else .cookieInvalid

/-- Witness for c3: the concrete run with an authentication failure on page
2 returns the sentinel, not a dataset. -/
theorem c3_auth_failure_aborts_run_witness :
    (get_all_bills c3Fetch).1 = .cookieFail :=
  (c3_auth_failure_aborts_run c3Fetch 2 (by decide) (by rfl)).1

/-- C5: on the paging path (both hints found on page 1, nonzero total count
and page size) and with no mid-loop abort, the set of pages the run requests
is exactly page 1 together with pages 2 through
`ceil(total_count / page_size)`, where the page size is the value parsed
from the page-size label defaulting to 20 on split failure — the later
pages' own contents (including any hint elements they carry) are universally
quantified, so the page count is computed once from page 1's hints and
never recomputed. -/
theorem c5_total_pages_from_page1_hints (fetch : Nat → FetchResult) (s1 : Soup)
    (df1 : List Record) (tci : InputTag) (pst : String) (tc : Int)
    (h1 : fetch 1 = .soup s1)
    (hp : parse_data_to_dataframe s1 = .ok (df1, some tci, some pst))
    (hne : df1 ≠ [])
    (htc : totalCountOf tci = some tc)
    (htc0 : tc ≠ 0)
    (hps0 : pageSizeOf pst ≠ 0)
    (hGood : ∀ q ∈ List.range' 2 ((ceilDiv tc (pageSizeOf pst)) - 1).toNat,
      goodPage (fetch q) = true) :
    ∀ p : Nat, LogMsg.fetchingPage p ∈ (get_all_bills fetch).2 ↔
      (p = 1 ∨ (2 ≤ p ∧ (p : Int) ≤ ceilDiv tc (pageSizeOf pst))) := by
  intro p
  rw [get_all_bills_paging fetch s1 df1 tci pst tc h1 hp hne htc htc0 hps0]
  generalize hT : ceilDiv tc (pageSizeOf pst) = T at hGood ⊢
  have hloop := pageLoop_good_mem fetch p (List.range' 2 (T - 1).toNat) df1 hGood
  by_cases hpn : (parse_page_size pst).isNone = true
  · simp only [hpn, if_true]
    simp [hloop, List.mem_range'_1, -Int.pred_toNat]
    omega
  · simp only [hpn, Bool.false_eq_true, if_false]
    simp [hloop, List.mem_range'_1, -Int.pred_toNat]
    omega

/-- Page for the c5 witness: one parseable row, total count 45, and a
page-size label that defeats the split (no ASCII comma and no dash), so the
default page size 20 applies and three pages are planned. -/
def c5Soup : Soup :=
  ⟨some ⟨some ⟨[⟨[Td.plain "食堂",
      ⟨"x", [Node.text "2024-11-12"], some "07:55:00", none, none⟩,
      Td.plain "消费", ⟨"-2", [], none, some "-2", none⟩,
      ⟨"成功", [], none, none, some "成功"⟩]⟩]⟩⟩,
    some ⟨some "45"⟩, some "共45条"⟩

/-- Fetch oracle for the c5 witness: pages beyond 1 all fail at transport
level (still non-aborting). -/
def c5Fetch : Nat → FetchResult := fun pg =>
  if pg = 1 then .soup c5Soup else .netError

/-- Witness for c5: with the label unparseable the default page size 20
gives ceil(45/20) = 3 pages; page 3 is requested and page 4 is not. -/
theorem c5_total_pages_from_page1_hints_witness :
    parse_page_size "共45条" = none ∧
      LogMsg.fetchingPage 3 ∈ (get_all_bills c5Fetch).2 ∧
      ¬ LogMsg.fetchingPage 4 ∈ (get_all_bills c5Fetch).2 := by
  refine ⟨by decide, ?_, ?_⟩
  · exact (c5_total_pages_from_page1_hints c5Fetch c5Soup
      [⟨"食堂", "2024-11-12 07:55:00", "消费", -2, "成功"⟩]
      ⟨some "45"⟩ "共45条" 45 rfl (by rfl) (by decide) (by decide) (by decide)
      (by decide) (by decide) 3).mpr (Or.inr ⟨by decide, by decide⟩)
  · intro hmem
    have h4 := (c5_total_pages_from_page1_hints c5Fetch c5Soup
      [⟨"食堂", "2024-11-12 07:55:00", "消费", -2, "成功"⟩]
      ⟨some "45"⟩ "共45条" 45 rfl (by rfl) (by decide) (by decide) (by decide)
      (by decide) (by decide) 4).mp hmem
    rcases h4 with h | ⟨h2, h3⟩
    · exact absurd h (by decide)
    · exact absurd h3 (by decide)

/-- C6: on the paging path with no aborting page, a transport failure on a
page strictly greater than 1 leaves the run outcome a successful dataset:
page 1's records followed by every planned page's contribution in page
order, with the failed page contributing exactly nothing. -/
theorem c6_transport_failure_skips_only_that_page (fetch : Nat → FetchResult)
    (s1 : Soup) (df1 : List Record) (tci : InputTag) (pst : String) (tc : Int)
    (p : Nat) (pages : List Nat)
    (h1 : fetch 1 = .soup s1)
    (hp : parse_data_to_dataframe s1 = .ok (df1, some tci, some pst))
    (hne : df1 ≠ [])
    (htc : totalCountOf tci = some tc)
    (htc0 : tc ≠ 0)
    (hps0 : pageSizeOf pst ≠ 0)
    (hpages : pages = List.range' 2 ((ceilDiv tc (pageSizeOf pst)) - 1).toNat)
    (hGood : ∀ q ∈ pages, goodPage (fetch q) = true)
    (hpmem : p ∈ pages)
    (hfp : fetch p = .netError) :
    (get_all_bills fetch).1 =
        .data (df1 ++ pages.flatMap (fun q => pageContrib (fetch q))) ∧
      pageContrib (fetch p) = [] ∧ 2 ≤ p := by
  subst hpages
  refine ⟨?_, ?_, ?_⟩
  · rw [get_all_bills_paging fetch s1 df1 tci pst tc h1 hp hne htc htc0 hps0]
    exact pageLoop_good_fst fetch _ df1 hGood
  · simp [pageContrib, hfp]
  · exact (List.mem_range'_1.mp hpmem).1

/-- Page 1 for the c6 witness: one parseable row and hints planning three
pages. -/
def c6Soup1 : Soup :=
  ⟨some ⟨some ⟨[⟨[Td.plain "食堂",
      ⟨"x", [Node.text "2024-01-01"], some "12:00:00", none, none⟩,
      Td.plain "消费", ⟨"-3", [], none, some "-3", none⟩,
      ⟨"成功", [], none, none, some "成功"⟩]⟩]⟩⟩,
    some ⟨some "45"⟩, some "显示 1-20条,共45条"⟩

/-- Page 3 for the c6 witness: one parseable row, no hints (later pages'
hints are discarded anyway). -/
def c6Soup3 : Soup :=
  ⟨some ⟨some ⟨[⟨[Td.plain "教室",
      ⟨"x", [Node.text "2024-01-02"], some "09:00:00", none, none⟩,
      Td.plain "消费", ⟨"-4", [], none, some "-4", none⟩,
      ⟨"成功", [], none, none, some "成功"⟩]⟩]⟩⟩,
    none, none⟩

/-- Fetch oracle for the c6 witness: page 2 fails at transport level, every
other page parses. -/
def c6Fetch : Nat → FetchResult := fun pg =>
  if pg = 1 then .soup c6Soup1 else if pg = 2 then .netError else .soup c6Soup3

/-- Witness for c6: the concrete three-page run with page 2 lost yields
exactly pages 1 and 3's records, in order. -/
theorem c6_transport_failure_skips_only_that_page_witness :
    (get_all_bills c6Fetch).1 =
      .data [⟨"食堂", "2024-01-01 12:00:00", "消费", -3, "成功"⟩,
             ⟨"教室", "2024-01-02 09:00:00", "消费", -4, "成功"⟩] := by
  have h := (c6_transport_failure_skips_only_that_page c6Fetch c6Soup1
    [⟨"食堂", "2024-01-01 12:00:00", "消费", -3, "成功"⟩]
    ⟨some "45"⟩ "显示 1-20条,共45条" 45 2
    (List.range' 2 ((ceilDiv 45 (pageSizeOf "显示 1-20条,共45条")) - 1).toNat)
    rfl (by rfl) (by decide) (by decide) (by decide) (by decide) rfl
    (by decide) (by decide) (by rfl)).1
  rw [h]
  decide

/-- Page for the c1 failing input: row 1 parses cleanly; row 2's time cell
reads "不是日期" with time sub-element "99:99:99", so its combined
timestamp string can never date-time-parse, while its amount is numeric. -/
def c1Soup : Soup :=
  ⟨some ⟨some ⟨[
      ⟨[Td.plain "食堂",
        ⟨"x", [Node.text "2024-02-02"], some "12:30:00", none, none⟩,
        Td.plain "消费", ⟨"-3", [], none, some "-3", none⟩,
        ⟨"成功", [], none, none, some "成功"⟩]⟩,
      ⟨[Td.plain "超市",
        ⟨"x", [Node.text "不是日期"], some "99:99:99", none, none⟩,
        Td.plain "消费", ⟨"-5", [], none, some "-5", none⟩,
        ⟨"成功", [], none, none, some "成功"⟩]⟩]⟩⟩,
    none, none⟩

/-- Fetch oracle for the c1 failing input. -/
def c1Fetch : Nat → FetchResult := fun _ => .soup c1Soup

/-- C1 (code bug, evaluation at the failing input): the row whose combined
timestamp string "不是日期 99:99:99" cannot be date-time-parsed is
nevertheless present in the dataset `get_all_bills` returns.  The source's
comment on scraper.py line 123 announces a datetime conversion of the
交易时间 column, but no conversion is ever performed, so the subsequent
dropna on that string column is vacuous and unparseable timestamps are
retained (the conversion only happens downstream in main.py / app.py). -/
theorem c1_unparsed_timestamp_row_retained :
    (get_all_bills c1Fetch).1 =
      .data [⟨"食堂", "2024-02-02 12:30:00", "消费", -3, "成功"⟩,
             ⟨"超市", "不是日期 99:99:99", "消费", -5, "成功"⟩] := by
  decide

/-- Page for the c2 failing input: a single row whose date fragment
("垃圾日期") and time fragment ("深夜") are both non-temporal text. -/
def c2Soup : Soup :=
  ⟨some ⟨some ⟨[⟨[Td.plain "泳池",
      ⟨"x", [Node.text "垃圾日期"], some "深夜", none, none⟩,
      Td.plain "消费", ⟨"7", [], none, some "7", none⟩,
      ⟨"成功", [], none, none, some "成功"⟩]⟩]⟩⟩,
    none, none⟩

/-- C2 (code bug, evaluation at the failing input): parse does concatenate
the date fragment and the time fragment of the time cell with a single
separating space, but it never date-time-parses the combined string — the
record with the impossible timestamp "垃圾日期 深夜" survives into parse's
output, contradicting the claim that every output record carries a
successfully parsed timestamp. -/
theorem c2_no_datetime_parse_on_combined_string :
    parse_data_to_dataframe c2Soup =
      .ok ([⟨"泳池", "垃圾日期 深夜", "消费", 7, "成功"⟩], none, none) := by
  rfl
